import Mathlib

/-!
Verification of the GEANT-TIM-BonaFide email-to-organization matcher.

This file shallowly embeds the decision logic of the repository:
the query generator (ror_client.py), the DNS relationship analyzer
(dns_client.py), the WHOIS comparator (whois_client.py), the composite
match scorer (match_scorer.py) and the ranker (organization_finder.py).

External collaborators (the tldextract library, the DNS resolver, the
WHOIS service) are passed in as oracle functions or records, exactly as
the code consumes their answers.  Fallible code is embedded in Option:
a result of none models an uncaught Python exception.  All definitions
are structural so that concrete runs reduce inside the kernel.
-/

/-! Python string primitives used by the sources, embedded structurally. -/

/-- Auxiliary worker for splitChar: accumulates the current piece (reversed). -/
def splitCharAux (sep : Char) : List Char → List Char → List String
  | [], acc => [String.mk acc.reverse]
  | c :: cs, acc =>
    if c = sep then String.mk acc.reverse :: splitCharAux sep cs []
    else splitCharAux sep cs (c :: acc)

/-- Python s.split(sep) for a one-character separator: keeps empty pieces,
and yields the one-element list with the empty string on empty input. -/
def splitChar (sep : Char) (s : String) : List String :=
  splitCharAux sep s.toList []

/-- Python list[-1] on the never-empty result of str.split. -/
def pyLast : List String → String
  | [] => ""
  | [x] => x
  | _ :: x :: xs => pyLast (x :: xs)

/-- Python list[0] on the never-empty result of str.split. -/
def pyFirst : List String → String
  | [] => ""
  | x :: _ => x

/-- Boolean test that the first list is a prefix of the second. -/
def isPrefixL : List Char → List Char → Bool
  | [], _ => true
  | _ :: _, [] => false
  | p :: ps, c :: cs => p = c && isPrefixL ps cs

/-- Python "pat in s" on strings: contiguous-substring containment. -/
def containsL : List Char → List Char → Bool
  | s, pat =>
    match s with
    | [] => isPrefixL pat []
    | _ :: cs => isPrefixL pat s || containsL cs pat

/-- Python "pat in s" lifted to String. -/
def strContains (s pat : String) : Bool :=
  containsL s.toList pat.toList

/-- Python s.startswith(p) lifted to String. -/
def startsWithS (p s : String) : Bool :=
  isPrefixL p.toList s.toList

/-- Python str.upper on one ASCII character. -/
def charUpper (c : Char) : Char :=
  if 97 ≤ c.toNat ∧ c.toNat ≤ 122 then Char.ofNat (c.toNat - 32) else c

/-- Python s.upper() (ASCII fragment, enough for domain suffixes). -/
def strUpper (s : String) : String := String.mk (s.toList.map charUpper)

/-- Python s.replace(old, new, 1): replace only the first occurrence. -/
def replaceFirstL (old new : Char) : List Char → List Char
  | [] => []
  | c :: cs => if c = old then new :: cs else c :: replaceFirstL old new cs

/-- Python s.replace('.', '@', 1) and friends, lifted to String. -/
def replaceFirst (old new : Char) (s : String) : String :=
  String.mk (replaceFirstL old new s.toList)

/-- Lexicographic code-point comparison, as Python compares str values. -/
def strLeL : List Char → List Char → Bool
  | [], _ => true
  | _ :: _, [] => false
  | a :: as, b :: bs =>
    if a.toNat < b.toNat then true
    else if b.toNat < a.toNat then false
    else strLeL as bs

/-- Python-style str order lifted to String. -/
def strLe (a b : String) : Bool := strLeL a.toList b.toList

/-- Python s.split() splits on whitespace runs and drops empty pieces;
splitting on each whitespace character and filtering empties is the same. -/
def splitWsAux : List Char → List Char → List String
  | [], acc => [String.mk acc.reverse]
  | c :: cs, acc =>
    if c.isWhitespace then String.mk acc.reverse :: splitWsAux cs []
    else splitWsAux cs (c :: acc)

/-- Python s.split() with no argument. -/
def splitWs (s : String) : List String :=
  (splitWsAux s.toList []).filter (fun t => t ≠ "")

/-- Python x.count('.') on a string. -/
def dotCount (s : String) : Nat := s.toList.count '.'

/-- Python str.lstrip(chars): drop leading characters that belong to the
character set of chars (not the literal prefix chars). -/
def pyLstrip (chars s : String) : String :=
  String.mk (s.toList.dropWhile (fun c => c ∈ chars.toList))

/-! Stable insertion sort.  CPython's sorted() and list.sort() are stable;
any stable sort by the same (total, transitive) boolean key comparison
produces the same output, so this model is the sort the sources run,
up to the unspecified iteration order of Python set literals (noted at
each use site). -/

/-- Insert x in front of the first element y with le x y; stability comes
from x being the earlier element at every use below. -/
def insertStable (le : α → α → Bool) (x : α) : List α → List α
  | [] => [x]
  | y :: ys => if le x y then x :: y :: ys else y :: insertStable le x ys

/-- Stable insertion sort by the boolean comparison le. -/
def sortStable (le : α → α → Bool) : List α → List α
  | [] => []
  | x :: xs => insertStable le x (sortStable le xs)

/-- Python ordered-set insertion: append unless already present. -/
def addUnique [DecidableEq α] (acc : List α) (x : α) : List α :=
  if x ∈ acc then acc else acc ++ [x]

/-- Deduplicate keeping first occurrences; models collecting a Python set
of strings with a deterministic (insertion) order. -/
def dedupKeepFirst [DecidableEq α] (l : List α) : List α :=
  l.foldl addUnique []

/-- Python set intersection as a list: distinct elements of the first list
that also occur in the second. -/
def setInterL [DecidableEq α] (xs ys : List α) : List α :=
  (dedupKeepFirst xs).filter (fun x => x ∈ ys)

/-! Data model: the records the core passes around, one field per key of
the corresponding Python dict. -/

/-- Answer of tldextract.extract for one input string.  tldextract is an
external library (an out-of-scope collaborator per the spec), so the
whole decomposition oracle is a parameter of the embedded functions. -/
structure TLDParts where
  subdomain : String
  domain : String
  suffix : String
  fqdn : String
deriving DecidableEq, Repr

/-- One entry of a candidate's external_ids list (ROR v2 shape):
a type tag and the list under its "all" key. -/
structure ExternalId where
  type' : String
  all : List String
deriving DecidableEq, Repr

/-- Candidate organization record as the scorer reads it: name, links
(after aggregate_links), external_ids. -/
structure RorResult where
  name : String
  links : List String
  external_ids : List ExternalId
deriving DecidableEq, Repr

/-- Score breakdown dict of MatchScorer.calculate_match_score, one field
per key, in the insertion order of the source. -/
structure ScoreBreakdown where
  fully_qualified_domain_name_match : Int
  domain_match : Int
  website_is_subdomain_of_email_domain : Int
  email_is_subdomain_of_website_domain : Int
  subdomain_mismatch : Int
  domain_of_email_in_website_subdomain : Int
  domain_of_website_in_email_subdomain : Int
  crossref_bonus : Int
  dns_verification_bonus : Int
  dns_similarity_bonus : Int
  whois_bonus : Int
  total : Int
deriving DecidableEq, Repr

/-- The all-zero breakdown built at the top of calculate_match_score. -/
def initialBreakdown : ScoreBreakdown :=
  { fully_qualified_domain_name_match := 0
    domain_match := 0
    website_is_subdomain_of_email_domain := 0
    email_is_subdomain_of_website_domain := 0
    subdomain_mismatch := 0
    domain_of_email_in_website_subdomain := 0
    domain_of_website_in_email_subdomain := 0
    crossref_bonus := 0
    dns_verification_bonus := 0
    dns_similarity_bonus := 0
    whois_bonus := 0
    total := 0 }

/-- Python sum(score_breakdown.values()): every value, total included
(total is still 0 at the only point where the sum is taken). -/
def sumValues (sb : ScoreBreakdown) : Int :=
  sb.fully_qualified_domain_name_match + sb.domain_match +
  sb.website_is_subdomain_of_email_domain + sb.email_is_subdomain_of_website_domain +
  sb.subdomain_mismatch + sb.domain_of_email_in_website_subdomain +
  sb.domain_of_website_in_email_subdomain + sb.crossref_bonus +
  sb.dns_verification_bonus + sb.dns_similarity_bonus + sb.whois_bonus + sb.total

/-- Sum of the eleven components other than total, as the spec words
"sum of all other fields". -/
def componentSum (sb : ScoreBreakdown) : Int :=
  sb.fully_qualified_domain_name_match + sb.domain_match +
  sb.website_is_subdomain_of_email_domain + sb.email_is_subdomain_of_website_domain +
  sb.subdomain_mismatch + sb.domain_of_email_in_website_subdomain +
  sb.domain_of_website_in_email_subdomain + sb.crossref_bonus +
  sb.dns_verification_bonus + sb.dns_similarity_bonus + sb.whois_bonus

/-- DNS record block run_dns_analysis builds for one domain, one field
per key of the Python dict. -/
structure DomainRecords where
  domain : String
  mx_records : List String
  ns_records : List String
  a_records : List String
  aaaa_records : List String
  cname_record : Option String
  soa_email : Option String
  txt_records : List (List String)
  spf_record : Option String
deriving DecidableEq, Repr

/-- Result dict of run_dns_analysis: the email_domain block always, the
website_domain block only when the two domains differ. -/
structure DnsAnalysis where
  email_domain : DomainRecords
  website_domain : Option DomainRecords
deriving DecidableEq, Repr

/-- Similarities dict of compare_dns_results, one field per key. -/
structure Similarities where
  matching_nameservers : List String
  matching_mx_records : List String
  matching_a_records : List String
  matching_aaaa_records : List String
  soa_email_relation : Bool
  spf_similarity : Bool
  email_soa : Option String
  website_soa : Option String
  email_spf : Option String
  website_spf : Option String
  relation_score : Nat
deriving DecidableEq, Repr

/-- DNS resolver oracle: one lookup function per record type, returning
what the get_* methods of DNSAnalyzer return (their failure handling,
empty list or none, is already folded into the answer, since each get_*
catches every exception locally). -/
structure Resolver where
  mx : String → List String
  ns : String → List String
  a : String → List String
  aaaa : String → List String
  cname : String → Option String
  soa : String → Option String
  txt : String → List (List String)

/-- WHOIS answer for one domain as query_domain shapes it: every field
nullable, never an empty-string placeholder. -/
structure WhoisRecord where
  domain_name : Option String
  org : Option String
  name : Option String
  emails : Option (List String)
  address : Option String
  city : Option String
  state : Option String
  country : Option String
deriving DecidableEq, Repr

/-- Matched-field dict built by WHOISClient.compare_domains: a key is
present exactly when the corresponding if-branch fired. -/
structure WhoisMatches where
  domain_name : Option String
  org : Option String
  name : Option String
  address : Option String
  emails : Option (List String)
deriving DecidableEq, Repr

/-- The whois_results dict the organization finder hands to the scorer:
match_score plus the matched fields. -/
structure WhoisSummary where
  match_score : Nat
  matches' : WhoisMatches
deriving DecidableEq, Repr

/-- One entry of scored_results in find_org_associated_with_email:
the candidate, its breakdown, and the per-candidate DNS/WHOIS context. -/
structure RankedResult where
  result : RorResult
  score_breakdown : ScoreBreakdown
  dns : Option DnsAnalysis
  whois : Option WhoisSummary
deriving DecidableEq, Repr

/-! DNSAnalyzer (dns_client.py). -/

/-- DNSAnalyzer.get_domain_from_email: everything after the last '@'. -/
def get_domain_from_email (email : String) : String :=
  pyLast (splitChar '@' email)

/-- Host extraction inside DNSAnalyzer.get_domain_from_url.  The source
prepends "http://" when no scheme is present and takes
urllib.parse.urlparse(url).netloc or .path.  Modelled from the spec's
external-interface reading of urllib for scheme-prefixed URLs without
userinfo: netloc is the run of characters after the scheme up to the
first of '/', '?', '#', and when netloc is empty the path fallback is
the remainder up to the first of '?', '#'. -/
def hostOf (url : String) : String :=
  let url' := if !(startsWithS "http://" url || startsWithS "https://" url) then
      "http://" ++ url else url
  let rest := if startsWithS "http://" url' then url'.toList.drop 7 else url'.toList.drop 8
  let netloc := rest.takeWhile (fun c => ¬(c = '/' ∨ c = '?' ∨ c = '#'))
  if netloc ≠ [] then String.mk netloc
  else String.mk (rest.takeWhile (fun c => ¬(c = '?' ∨ c = '#')))

/-- DNSAnalyzer.get_domain_from_url: extract the host, then
domain.lstrip('www.') when the host starts with "www.". -/
def get_domain_from_url (url : String) : String :=
  let domain := hostOf url
  if startsWithS "www." domain then pyLstrip "www." domain else domain

/-- DNSAnalyzer.find_spf: first TXT chunk containing "v=spf1", scanning
record sets in order and chunks within each set in order. -/
def find_spf : List (List String) → Option String
  | [] => none
  | recordSet :: rest =>
    match find_spf_in_set recordSet with
    | some r => some r
    | none => find_spf rest
where
  /-- Scan one TXT record set for a chunk containing "v=spf1". -/
  find_spf_in_set : List String → Option String
    | [] => none
    | record :: rs =>
      if strContains record "v=spf1" then some record else find_spf_in_set rs

/-- Record block for one domain, as run_dns_analysis fills it from the
resolver (each get_* already degrades to empty/none on failure). -/
def recordsFor (res : Resolver) (d : String) : DomainRecords :=
  let txt := res.txt d
  { domain := d
    mx_records := res.mx d
    ns_records := res.ns d
    a_records := res.a d
    aaaa_records := res.aaaa d
    cname_record := res.cname d
    soa_email := res.soa d
    txt_records := txt
    spf_record := find_spf txt }

/-- DNSAnalyzer.run_dns_analysis: always analyze the email domain; a
falsy (absent or empty) website domain defaults to the email domain;
the website block is added only when the two domains differ. -/
def run_dns_analysis (res : Resolver) (email_domain : String)
    (website_domain : Option String) : DnsAnalysis :=
  let wd := match website_domain with
    | none => email_domain
    | some s => if s = "" then email_domain else s
  { email_domain := recordsFor res email_domain
    website_domain := if wd ≠ email_domain then some (recordsFor res wd) else none }

/-- Sorted set intersection, as sorted(list(a.intersection(b))). -/
def sortedInter (xs ys : List String) : List String :=
  sortStable strLe (setInterL xs ys)

/-- DNSAnalyzer.compare_dns_results: none when the website_domain block
is absent, otherwise the similarities dict with its relation score. -/
def compare_dns_results (results : DnsAnalysis) : Option Similarities :=
  match results.website_domain with
  | none => none
  | some website_domain =>
    let email_domain := results.email_domain
    let matching_ns := sortedInter email_domain.ns_records website_domain.ns_records
    let matching_mx := sortedInter email_domain.mx_records website_domain.mx_records
    let matching_a := sortedInter email_domain.a_records website_domain.a_records
    let matching_aaaa := sortedInter email_domain.aaaa_records website_domain.aaaa_records
    let email_soa := email_domain.soa_email
    let website_soa := website_domain.soa_email
    let soa_email_relation :=
      match email_soa, website_soa with
      | some es, some ws =>
        if es = "" ∨ ws = "" then false
        else
          let es_domain := pyLast (splitChar '@' (replaceFirst '.' '@' es))
          let ws_domain := pyLast (splitChar '@' (replaceFirst '.' '@' ws))
          es = ws ∨ es_domain = ws_domain ∨
            strContains ws email_domain.domain ∨ strContains es website_domain.domain
      | _, _ => false
    let email_spf := email_domain.spf_record
    let website_spf := website_domain.spf_record
    let spf_similarity :=
      match email_spf, website_spf with
      | some espf, some wspf =>
        if espf = "" ∨ wspf = "" then false
        else
          let common := setInterL (splitWs espf) (splitWs wspf)
          let includes_match := common.any (fun e => startsWithS "include:" e)
          let ip_match := common.any (fun e => startsWithS "ip4:" e || startsWithS "ip6:" e)
          includes_match ∨ ip_match
      | _, _ => false
    let score1 := if matching_ns ≠ [] then 25 * min matching_ns.length 2 else 0
    let score2 := if matching_a ≠ [] then 30 else 0
    let score3 := if matching_aaaa ≠ [] then 15 else 0
    let score4 := if matching_mx ≠ [] then 20 else 0
    let score5 := if soa_email_relation then 10 else 0
    let score6 := if spf_similarity then 10 else 0
    some
      { matching_nameservers := matching_ns
        matching_mx_records := matching_mx
        matching_a_records := matching_a
        matching_aaaa_records := matching_aaaa
        soa_email_relation := soa_email_relation
        spf_similarity := spf_similarity
        email_soa := email_soa
        website_soa := website_soa
        email_spf := email_spf
        website_spf := website_spf
        relation_score := min (score1 + score2 + score3 + score4 + score5 + score6) 100 }

/-! WHOISClient (whois_client.py). -/

/-- Emails appended into results['emails'] by the nested loops of
compare_domains: for each email1 of the first record, one copy of
email1 per equal email2 of the second record. -/
def sharedEmails (l1 l2 : List String) : List String :=
  l1.flatMap (fun e1 => (l2.filter (fun e2 => e2 = e1)).map (fun _ => e1))

/-- WHOISClient.compare_domains, given the WHOIS lookup oracle in place
of the live whois.whois call: none when either domain is falsy, else
the accumulated match score modulo 100 together with the matched-field
dict.  Accumulation order and guards follow the source if-chain. -/
def compare_domains (lookup : String → WhoisRecord) (domain1 domain2 : String) :
    Option (Nat × WhoisMatches) :=
  if domain1 = "" ∨ domain2 = "" then none
  else
    let r1 := lookup domain1
    let r2 := lookup domain2
    let results0 : WhoisMatches :=
      { domain_name := none, org := none, name := none, address := none, emails := none }
    let hitDomain := r1.domain_name = r2.domain_name ∧
      r1.domain_name ≠ none ∧ r2.domain_name ≠ none
    let results1 := if hitDomain then { results0 with domain_name := r1.domain_name } else results0
    let score1 : Nat := if hitDomain then 100 else 0
    let hitOrg := r1.org = r2.org ∧ r1.org ≠ none ∧ r2.org ≠ none
    let results2 := if hitOrg then { results1 with org := r1.org } else results1
    let score2 := score1 + (if hitOrg then 100 else 0)
    let hitName := r1.name = r2.name ∧ r1.name ≠ none ∧ r2.name ≠ none
    let results3 := if hitName then { results2 with name := r1.name } else results2
    let score3 := score2 + (if hitName then 100 else 0)
    let hitAddress :=
      (r1.address = r2.address ∧ r1.address ≠ none ∧ r2.address ≠ none) ∧
      (r1.city = r2.city ∧ r1.city ≠ none ∧ r2.city ≠ none) ∧
      (r1.state = r2.state ∧ r1.state ≠ none ∧ r2.state ≠ none) ∧
      (r1.country = r2.country ∧ r1.country ≠ none ∧ r2.country ≠ none)
    let results4 := if hitAddress then { results3 with address := r1.address } else results3
    let score4 := score3 + (if hitAddress then 50 else 0)
    match r1.emails, r2.emails with
    | some l1, some l2 =>
      let shared := sharedEmails l1 l2
      let results5 := if shared ≠ [] then { results4 with emails := some shared } else results4
      some ((score4 + 80) % 100, results5)
    | _, _ => some (score4 % 100, results4)

/-- The WHOIS accumulation written as the one-shot sum of the claim and
of spec section 4.4, before the modulo: 100 per matching non-null
domain_name / org / name, 50 when address, city, state and country all
match and are all non-null, 80 when both email sequences are non-null. -/
def whoisMatchSum (r1 r2 : WhoisRecord) : Nat :=
  (if r1.domain_name = r2.domain_name ∧ r1.domain_name ≠ none ∧ r2.domain_name ≠ none
    then 100 else 0) +
  (if r1.org = r2.org ∧ r1.org ≠ none ∧ r2.org ≠ none then 100 else 0) +
  (if r1.name = r2.name ∧ r1.name ≠ none ∧ r2.name ≠ none then 100 else 0) +
  (if (r1.address = r2.address ∧ r1.address ≠ none ∧ r2.address ≠ none) ∧
      (r1.city = r2.city ∧ r1.city ≠ none ∧ r2.city ≠ none) ∧
      (r1.state = r2.state ∧ r1.state ≠ none ∧ r2.state ≠ none) ∧
      (r1.country = r2.country ∧ r1.country ≠ none ∧ r2.country ≠ none)
    then 50 else 0) +
  (if r1.emails ≠ none ∧ r2.emails ≠ none then 80 else 0)

/-! RORClient (ror_client.py). -/

/-- The two-letter TLD table built in RORClient.__init__. -/
def tlds : List String :=
  ["ac", "ad", "ae", "af", "ag", "ai", "al", "am", "ao", "ar", "as", "at", "au", "aw", "ax", "az",
   "ba", "bb", "bd", "be", "bf", "bg", "bh", "bi", "bj", "bm", "bn", "bo", "br", "bs", "bt", "bv",
   "bw", "by", "bz", "ca", "cc", "cd", "cf", "cg", "ch", "ci", "ck", "cl", "cm", "cn", "co", "cr",
   "cu", "cv", "cw", "cx", "cy", "cz", "de", "dj", "dk", "dm", "do", "dz", "ec", "ee", "eg", "er",
   "es", "et", "eu", "fi", "fj", "fk", "fm", "fo", "fr", "ga", "gb", "gd", "ge", "gf", "gg", "gh",
   "gi", "gl", "gm", "gn", "gp", "gq", "gr", "gs", "gt", "gu", "gw", "gy", "hk", "hm", "hn", "hr",
   "ht", "hu", "id", "ie", "il", "im", "in", "io", "iq", "ir", "is", "it", "je", "jm", "jo", "jp",
   "ke", "kg", "kh", "ki", "km", "kn", "kp", "kr", "kw", "ky", "kz", "la", "lb", "lc", "li", "lk",
   "lr", "ls", "lt", "lu", "lv", "ly", "ma", "mc", "md", "me", "mg", "mh", "mk", "ml", "mm", "mn",
   "mo", "mp", "mq", "mr", "ms", "mt", "mu", "mv", "mw", "mx", "my", "mz", "na", "nc", "ne", "nf",
   "ng", "ni", "nl", "no", "np", "nr", "nu", "nz", "om", "pa", "pe", "pf", "pg", "ph", "pk", "pl",
   "pm", "pn", "pr", "ps", "pt", "pw", "py", "qa", "re", "ro", "rs", "ru", "rw", "sa", "sb", "sc",
   "sd", "se", "sg", "sh", "si", "sj", "sk", "sl", "sm", "sn", "so", "sr", "st", "su", "sv", "sx",
   "sy", "sz", "tc", "td", "tf", "tg", "th", "tj", "tk", "tl", "tm", "tn", "to", "tr", "tt", "tv",
   "tw", "tz", "ua", "ug", "uk", "us", "uy", "uz", "va", "vc", "ve", "vg", "vi", "vn", "vu", "wf",
   "ws", "ye", "yt", "za", "zm", "zw"]

/-- Python ".".join(parts). -/
def joinDots : List String → String
  | [] => ""
  | [x] => x
  | x :: y :: rest => x ++ "." ++ joinDots (y :: rest)

/-- Label chain of generate_ror_queries: subdomain labels plus the
registrable-domain label, or the single registrable-domain label when
the subdomain is falsy. -/
def labelChain (extracted : TLDParts) : List String :=
  if extracted.subdomain ≠ "" then
    splitChar '.' extracted.subdomain ++ [extracted.domain]
  else [extracted.domain]

/-- Raw variant stream of generate_ror_queries, in source emission order:
for each index i, parts[i:] and (when i < len-1) parts[i:-1]; then every
single label (the set.update(parts) line). -/
def rawVariants (parts : List String) : List String :=
  (List.range parts.length).flatMap
    (fun i =>
      joinDots (parts.drop i) ::
        (if i < parts.length - 1 then [joinDots ((parts.drop i).dropLast)] else []))
    ++ parts

/-- Distinct domain variants.  The source collects them in a Python set
whose iteration order CPython leaves unspecified; the model fixes first
insertion order, which only resolves ties of the subsequent dot-count
sort and affects no claim. -/
def domain_variants (parts : List String) : List String :=
  dedupKeepFirst (rawVariants parts)

/-- Variants in final emission order: sorted ascending by dot count
(sorted with key=x.count('.'), a stable sort). -/
def sortedVariants (parts : List String) : List String :=
  sortStable (fun a b => dotCount a ≤ dotCount b) (domain_variants parts)

/-- Country-scoped query template of generate_ror_queries (the suffix is
uppercased into the country_code filter clause). -/
def countryBase (suffix : String) : String :=
  "https://api.ror.org/v2/organizations?query.advanced=locations.geonames_details.country_code:"
    ++ strUpper suffix
    ++ "%20AND%20links.type:website%20AND%20links.value:"

/-- Generic query template of generate_ror_queries. -/
def genericBase : String :=
  "https://api.ror.org/v2/organizations?query.advanced=links.type:website%20AND%20links.value:"

/-- RORClient.generate_ror_queries, given the tldextract answer for the
email's domain: pick the template by whether the last dot-segment of
the suffix is a known TLD, then emit one query per distinct variant in
ascending dot-count order. -/
def generate_ror_queries (extracted : TLDParts) : List String :=
  let base_query :=
    if pyLast (splitChar '.' extracted.suffix) ∈ tlds then countryBase extracted.suffix
    else genericBase
  (sortedVariants (labelChain extracted)).map (fun v => base_query ++ v)

/-! MatchScorer (match_scorer.py). -/

/-- Worker for the crossref_id loop of calculate_match_score: every
fundref entry overwrites crossref_id with entry["all"][0]; indexing an
empty "all" list raises IndexError, modelled as none. -/
def findCrossrefGo (acc : String) : List ExternalId → Option String
  | [] => some acc
  | e :: rest =>
    if e.type' = "fundref" then
      match e.all with
      | [] => none
      | v :: _ => findCrossrefGo v rest
    else findCrossrefGo acc rest

/-- The crossref_id computed from result['external_ids'], starting from
the 'N/A' sentinel. -/
def findCrossrefId (ext : List ExternalId) : Option String :=
  findCrossrefGo "N/A" ext

/-- The dns_verification_bonus loop of calculate_match_score, carried
state being score_breakdown["dns_verification_bonus"].  An A-record
overlap sets 10 and breaks out; otherwise the SOA check may raise the
bonus to 5 via max.  getA is the live per-link A-record lookup the
source performs inside the loop (get_a_records returns the empty list
on any resolver failure, so the surrounding try never fires). -/
def dnsVerifLoop (getA : String → List String) (email_a : List String)
    (soa_email : Option String) : List String → Int → Int
  | [], bonus => bonus
  | link :: rest, bonus =>
    let link_domain := get_domain_from_url link
    let website_a := getA link_domain
    if (email_a.any (fun x => x ∈ website_a)) ∧ email_a ≠ [] ∧ website_a ≠ [] then 10
    else
      let bonus' :=
        match soa_email with
        | some soa =>
          if soa = "" then bonus
          else
            let soa_domain := get_domain_from_email (replaceFirst '.' '@' soa)
            if soa_domain ≠ "" ∧ (strContains link soa_domain ∨ strContains soa_domain link_domain)
              then max bonus 5 else bonus
        | none => bonus
      dnsVerifLoop getA email_a soa_email rest bonus'

/-- Outcome of the per-link scoring loop: Sum.inl is the early return on
an exact FQDN match (the source returns the breakdown right there,
before the total is ever computed), Sum.inr is the loop running off the
end of the links; none is the IndexError from the crossref lookup. -/
def scoreLinks (tldx : String → TLDParts) (email_parts : TLDParts)
    (ext : List ExternalId) : List String → ScoreBreakdown →
    Option (ScoreBreakdown ⊕ ScoreBreakdown)
  | [], sb => some (Sum.inr sb)
  | link :: rest, sb =>
    let result_parts := tldx link
    let result_fqdn :=
      if pyFirst (splitChar '.' result_parts.fqdn) = "www" then
        String.mk (result_parts.fqdn.toList.drop 4)
      else result_parts.fqdn
    if email_parts.fqdn = result_fqdn then
      some (Sum.inl { sb with fully_qualified_domain_name_match :=
        (max sb.fully_qualified_domain_name_match 100) })
    else if email_parts.domain = result_parts.domain then
      let sb := { sb with domain_match := max sb.domain_match 80 }
      match findCrossrefId ext with
      | none => none
      | some crossref_id =>
        let sb := if crossref_id ≠ "N/A" then { sb with crossref_bonus := 5 } else sb
        let sb :=
          if email_parts.subdomain ≠ "" ∧
              (result_parts.subdomain ≠ "" ∧ result_parts.subdomain ≠ "www") then
            { sb with subdomain_mismatch := min sb.subdomain_mismatch (-10) }
          else sb
        let sb :=
          if email_parts.subdomain ≠ "" ∧
              (result_parts.subdomain = "" ∨ result_parts.subdomain = "www") then
            { sb with email_is_subdomain_of_website_domain :=
              (max sb.email_is_subdomain_of_website_domain 10) }
          else sb
        let sb :=
          if email_parts.subdomain = "" ∧
              (result_parts.subdomain ≠ "" ∧ result_parts.subdomain ≠ "www") then
            { sb with website_is_subdomain_of_email_domain :=
              (min sb.website_is_subdomain_of_email_domain (-10)) }
          else sb
        scoreLinks tldx email_parts ext rest sb
    else
      let sb :=
        if result_parts.subdomain ≠ "" ∧ email_parts.subdomain ≠ "" then
          let result_subdomain_parts :=
            let rsp := splitChar '.' result_parts.subdomain
            if pyFirst (splitChar '.' result_fqdn) = "www" then rsp.drop 1 else rsp
          let email_subdomain_parts := splitChar '.' email_parts.subdomain
          let sb :=
            if result_parts.domain ∈ email_subdomain_parts then
              { sb with domain_of_website_in_email_subdomain :=
                (max sb.domain_of_website_in_email_subdomain 20) }
            else sb
          if email_parts.domain ∈ result_subdomain_parts then
            { sb with domain_of_email_in_website_subdomain :=
              (max sb.domain_of_email_in_website_subdomain 20) }
          else sb
        else sb
      scoreLinks tldx email_parts ext rest sb

/-- Breakdown state right before the per-link loop of
calculate_match_score: the zero dict with the WHOIS bonus, the DNS
verification bonus and the DNS similarity bonus filled in (in source
order) when the optional contexts are present. -/
def preLoopBreakdown (getA : String → List String) (result : RorResult)
    (dns_results : Option DnsAnalysis) (whois_results : Option WhoisSummary) :
    ScoreBreakdown :=
  let sb := initialBreakdown
  let sb :=
    match whois_results with
    | some w => { sb with whois_bonus := ((min 20 (w.match_score / 5) : Nat) : Int) }
    | none => sb
  match dns_results with
  | some dr =>
    let sb := { sb with dns_verification_bonus :=
      (dnsVerifLoop getA dr.email_domain.a_records dr.email_domain.soa_email
        result.links sb.dns_verification_bonus) }
    match dr.website_domain with
    | some _ =>
      match compare_dns_results dr with
      | some similarities =>
        { sb with dns_similarity_bonus :=
          (((min 15 (similarities.relation_score / 7) : Nat) : Int)) }
      | none => sb
    | none => sb
  | none => sb

/-- MatchScorer.calculate_match_score.  tldx is the tldextract oracle
and getA the live A-record lookup used by the DNS verification loop.
Answer none models the uncaught IndexError of the crossref lookup; on
the early FQDN return the total field is whatever it held (0), since
the source computes the total only after the loop. -/
def calculate_match_score (tldx : String → TLDParts) (getA : String → List String)
    (email : String) (result : RorResult)
    (dns_results : Option DnsAnalysis) (whois_results : Option WhoisSummary) :
    Option ScoreBreakdown :=
  let email_full_domain := pyLast (splitChar '@' email)
  let email_parts := tldx email_full_domain
  match scoreLinks tldx email_parts result.external_ids result.links
      (preLoopBreakdown getA result dns_results whois_results) with
  | none => none
  | some (Sum.inl sbEarly) => some sbEarly
  | some (Sum.inr sbDone) => some { sbDone with total := sumValues sbDone }

/-! Ranker and display limit (organization_finder.py and
output_formatter.py). -/

/-- Comparison of scored_results.sort(key=lambda x: x[1]["total"],
reverse=True): descending by total; CPython's sort is stable, so ties
keep their registry order, which insertion before the first
not-greater total reproduces. -/
def rankLe (a b : RankedResult) : Bool :=
  b.score_breakdown.total ≤ a.score_breakdown.total

/-- The sorted scored_results list. -/
def rankResults (xs : List RankedResult) : List RankedResult :=
  sortStable rankLe xs

/-- Effective display limit of find_org_associated_with_email: a falsy
(absent or zero) or negative limit becomes the full length. -/
def effectiveLimit (limit : Option Int) (n : Nat) : Int :=
  match limit with
  | none => n
  | some v => if v = 0 ∨ v < 0 then (n : Int) else v

/-- Unpacking of one scored_results entry by the for header of
print_organization_results: the finder appends 4-tuples
(result, breakdown, dns, whois), while the formatter header binds only
three names (result, score_breakdown, dns_results_for_result), so the
Python unpack raises ValueError for every entry; none models that
exception, and no entry ever unpacks. -/
def unpackEntry3 (_ : RankedResult) :
    Option (RorResult × ScoreBreakdown × Option DnsAnalysis) := none

/-- Display loop of print_organization_results: enumerate from 1, each
iteration first unpacking the next entry in the for header (a failed
unpack aborts the whole loop with ValueError, i.e. none) and only then
breaking once the counter exceeds the limit. -/
def displayLoop (limit : Int) :
    Int → List RankedResult → Option (List (RorResult × ScoreBreakdown × Option DnsAnalysis))
  | _, [] => some []
  | i, entry :: rest =>
    match unpackEntry3 entry with
    | none => none
    | some e =>
      if i > limit then some []
      else
        match displayLoop limit (i + 1) rest with
        | none => none
        | some es => some (e :: es)

/-- What the formatter's loop yields for a given raw limit: the printed
entries, or none when printing raises. -/
def displayedResults (xs : List RankedResult) (limit : Option Int) :
    Option (List (RorResult × ScoreBreakdown × Option DnsAnalysis)) :=
  displayLoop (effectiveLimit limit (rankResults xs).length) 1 (rankResults xs)

/-- One ranked entry used by the C7 failing instance. -/
def entryC7 : RankedResult :=
  { result := { name := "Uni", links := [], external_ids := [] }
    score_breakdown := initialBreakdown, dns := none, whois := none }

/-! Generic facts about the stable insertion sort. -/

theorem mem_insertStable {le : α → α → Bool} (x a : α) (l : List α) :
    a ∈ insertStable le x l ↔ a = x ∨ a ∈ l := by
  induction l with
  | nil => simp [insertStable]
  | cons y ys ih =>
    by_cases h : le x y
    · simp [insertStable, h]
    · simp only [insertStable, if_neg h, List.mem_cons, ih]
      tauto

theorem insertStable_perm (le : α → α → Bool) (x : α) (l : List α) :
    List.Perm (insertStable le x l) (x :: l) := by
  induction l with
  | nil => rfl
  | cons y ys ih =>
    by_cases h : le x y
    · simp [insertStable, h]
    · simp only [insertStable, if_neg h]
      exact (ih.cons y).trans (List.Perm.swap x y ys)

theorem sortStable_perm (le : α → α → Bool) :
    ∀ l : List α, List.Perm (sortStable le l) l
  | [] => .refl _
  | x :: xs =>
    (insertStable_perm le x (sortStable le xs)).trans ((sortStable_perm le xs).cons x)

theorem pairwise_insertStable {le : α → α → Bool}
    (trans : ∀ a b c, le a b = true → le b c = true → le a c = true)
    (total : ∀ a b, le a b = true ∨ le b a = true) (x : α) :
    ∀ {l : List α}, l.Pairwise (fun a b => le a b = true) →
      (insertStable le x l).Pairwise (fun a b => le a b = true) := by
  intro l
  induction l with
  | nil => intro _; simp [insertStable]
  | cons y ys ih =>
    intro h
    rcases List.pairwise_cons.1 h with ⟨hy, hys⟩
    by_cases hxy : le x y
    · simp only [insertStable, if_pos hxy]
      refine List.pairwise_cons.2 ⟨?_, h⟩
      intro b hb
      rcases List.mem_cons.1 hb with rfl | hb
      · exact hxy
      · exact trans x y b hxy (hy b hb)
    · simp only [insertStable, if_neg hxy]
      refine List.pairwise_cons.2 ⟨?_, ih hys⟩
      intro b hb
      rcases (mem_insertStable x b ys).1 hb with heq | hb
      · rw [heq]
        rcases total x y with h' | h'
        · exact absurd h' hxy
        · exact h'
      · exact hy b hb

theorem pairwise_sortStable {le : α → α → Bool}
    (trans : ∀ a b c, le a b = true → le b c = true → le a c = true)
    (total : ∀ a b, le a b = true ∨ le b a = true) :
    ∀ l : List α, (sortStable le l).Pairwise (fun a b => le a b = true)
  | [] => .nil
  | x :: xs => pairwise_insertStable trans total x (pairwise_sortStable trans total xs)

theorem filter_insertStable_neg {le : α → α → Bool} {p : α → Bool} {x : α}
    (hx : ¬p x = true) : ∀ l, (insertStable le x l).filter p = l.filter p := by
  intro l
  induction l with
  | nil => simp [insertStable, hx]
  | cons y ys ih =>
    by_cases hxy : le x y
    · simp [insertStable, hxy, hx]
    · simp only [insertStable, if_neg hxy, List.filter_cons]
      cases hpy : p y <;> simp [hpy, ih]

theorem filter_insertStable_pos {le : α → α → Bool} {p : α → Bool} {x : α}
    (hx : p x = true) (hle : ∀ y, p y = true → le x y = true) :
    ∀ l, (insertStable le x l).filter p = x :: l.filter p := by
  intro l
  induction l with
  | nil => simp [insertStable, hx]
  | cons y ys ih =>
    by_cases hxy : le x y
    · simp [insertStable, hxy, hx]
    · have hpy : ¬p y = true := fun hpy => hxy (hle y hpy)
      simp only [insertStable, if_neg hxy, List.filter_cons]
      cases hpy2 : p y
      · simpa [hpy2] using ih
      · exact absurd hpy2 hpy

theorem filter_sortStable {le : α → α → Bool} {p : α → Bool}
    (hp : ∀ a b, p a = true → p b = true → le a b = true) :
    ∀ l : List α, (sortStable le l).filter p = l.filter p
  | [] => rfl
  | x :: xs => by
    simp only [sortStable]
    cases hx : p x
    · rw [filter_insertStable_neg (by simp [hx]), filter_sortStable hp xs]
      simp [List.filter_cons, hx]
    · rw [filter_insertStable_pos hx (fun y hy => hp x y hx hy),
        filter_sortStable hp xs]
      simp [List.filter_cons, hx]


theorem rankLe_trans (a b c : RankedResult) :
    rankLe a b = true → rankLe b c = true → rankLe a c = true := by
  simp only [rankLe, decide_eq_true_eq]
  omega

theorem rankLe_total (a b : RankedResult) : rankLe a b = true ∨ rankLe b a = true := by
  simp only [rankLe, decide_eq_true_eq]
  omega

/-- Claim C7 (code bug): the ranker half holds, the sorted
scored_results list being a permutation of its input, ordered by total
descending, with equal totals keeping their registry order; but the
display-limit half fails: the finder appends 4-tuples while the
formatter's loop header binds three names, so printing raises
ValueError on the first entry of every non-empty ranked list and the
limit never truncates anything. -/
theorem c7_ranker_sorts_but_display_crashes :
    (∀ xs : List RankedResult, List.Perm (rankResults xs) xs) ∧
    (∀ xs : List RankedResult, (rankResults xs).Pairwise
      (fun a b => b.score_breakdown.total ≤ a.score_breakdown.total)) ∧
    (∀ (xs : List RankedResult) (t : Int),
      (rankResults xs).filter (fun x => decide (x.score_breakdown.total = t))
        = xs.filter (fun x => decide (x.score_breakdown.total = t))) ∧
    (∀ (xs : List RankedResult) (limit : Option Int),
      displayedResults xs limit = if xs = [] then some [] else none) ∧
    displayedResults [entryC7] (some 1) = none := by
  have hperm : ∀ xs : List RankedResult, List.Perm (rankResults xs) xs :=
    fun xs => sortStable_perm rankLe xs
  have hsorted : ∀ xs : List RankedResult, (rankResults xs).Pairwise
      (fun a b => b.score_breakdown.total ≤ a.score_breakdown.total) := by
    intro xs
    have := pairwise_sortStable rankLe_trans rankLe_total xs
    exact this.imp (fun h => by simpa [rankLe, decide_eq_true_eq] using h)
  have hfilter : ∀ (xs : List RankedResult) (t : Int),
      (rankResults xs).filter (fun x => decide (x.score_breakdown.total = t))
        = xs.filter (fun x => decide (x.score_breakdown.total = t)) := by
    intro xs t
    refine filter_sortStable ?_ xs
    intro a b ha hb
    simp only [decide_eq_true_eq] at ha hb
    simp [rankLe, ha, hb]
  refine ⟨hperm, hsorted, hfilter, ?_, by decide⟩
  intro xs limit
  unfold displayedResults
  cases xs with
  | nil => simp [rankResults, sortStable, displayLoop]
  | cons x rest =>
    have hlen : (rankResults (x :: rest)).length = rest.length + 1 := by
      simpa using (hperm (x :: rest)).length_eq
    obtain ⟨y, ys, hy⟩ : ∃ y ys, rankResults (x :: rest) = y :: ys := by
      cases h : rankResults (x :: rest) with
      | nil => rw [h] at hlen; simp at hlen
      | cons a as => exact ⟨a, as, rfl⟩
    rw [hy]
    simp [displayLoop, unpackEntry3]

/-! Concrete fixtures used by the claim theorems below. -/

/-- WHOIS answer used in the C4 instance: only org agrees, both records
carry (disjoint) email lists. -/
def rOrg1 : WhoisRecord :=
  { domain_name := none, org := some "Org Inc", name := none, emails := some ["a@x.com"]
    address := none, city := none, state := none, country := none }

/-- Second WHOIS answer of the C4 instance. -/
def rOrg2 : WhoisRecord :=
  { domain_name := none, org := some "Org Inc", name := none, emails := some ["b@y.com"]
    address := none, city := none, state := none, country := none }

/-- WHOIS lookup oracle of the C4 instance. -/
def lkC4 : String → WhoisRecord := fun d => if d = "x.com" then rOrg1 else rOrg2

/-- Claim C4: the WHOIS score compare_domains returns is the accumulated
field sum reduced modulo 100, and the org (+100) plus comparable-emails
(+80) instance comes out as (100 + 80) % 100 = 80. -/
theorem c4_whois_score_mod_100 :
    (∀ (lookup : String → WhoisRecord) (d1 d2 : String), d1 ≠ "" → d2 ≠ "" →
      (compare_domains lookup d1 d2).map Prod.fst
        = some (whoisMatchSum (lookup d1) (lookup d2) % 100)) ∧
    (compare_domains lkC4 "x.com" "y.com").map Prod.fst = some ((100 + 80) % 100) ∧
    whoisMatchSum rOrg1 rOrg2 = 100 + 80 ∧
    (100 + 80) % 100 = 80 := by
  refine ⟨?_, by decide, by decide, by decide⟩
  intro lookup d1 d2 h1 h2
  unfold compare_domains whoisMatchSum
  rw [if_neg (by simp [h1, h2])]
  rcases hr1 : (lookup d1).emails with _ | l1 <;>
    rcases hr2 : (lookup d2).emails with _ | l2 <;>
      simp only [hr1, hr2, Option.map_some', Option.some.injEq, ne_eq, reduceCtorEq,
        not_false_eq_true, and_true, true_and, and_false, false_and, if_true, if_false,
        not_true_eq_false, ite_true, ite_false, not_false_iff] <;>
      rfl

/-- Witness for claim C4: the universal part applied to the concrete
lookup and the two non-empty domains of the instance. -/
theorem c4_whois_score_mod_100_witness :
    (compare_domains lkC4 "x.com" "y.com").map Prod.fst
      = some (whoisMatchSum (lkC4 "x.com") (lkC4 "y.com") % 100) :=
  c4_whois_score_mod_100.1 lkC4 "x.com" "y.com" (by decide) (by decide)

/-- Email-side DNS record set of the C5 instance: three nameservers and
two A records, no other data. -/
def eRec : DomainRecords :=
  { domain := "uni.edu", mx_records := ["mx1.uni.edu"]
    ns_records := ["ns1.host.net", "ns2.host.net", "ns3.uni.edu"]
    a_records := ["10.0.0.1", "10.0.0.2"], aaaa_records := [], cname_record := none
    soa_email := none, txt_records := [], spf_record := none }

/-- Website-side DNS record set of the C5 instance: shares exactly two
nameservers and exactly one A record with eRec, nothing else. -/
def wRec : DomainRecords :=
  { domain := "college.edu", mx_records := ["mx.college.edu"]
    ns_records := ["ns1.host.net", "ns2.host.net"]
    a_records := ["10.0.0.2", "10.9.9.9"], aaaa_records := [], cname_record := none
    soa_email := none, txt_records := [], spf_record := none }

/-- The nameserver term of the relation score: guarding the addition by
non-emptiness changes nothing, since min 0 2 = 0. -/
theorem ns_term (l : List String) :
    (if l ≠ [] then 25 * min l.length 2 else 0) = 25 * min l.length 2 := by
  cases l <;> simp

/-- Claim C5: for distinct analyzed domains the relation score is
25 * min(shared nameservers, 2), plus 30 / 15 / 20 for any shared
A / AAAA / MX record, plus 10 each for the SOA relation and the SPF
similarity, capped at 100; the two-nameservers-plus-one-A instance
scores 80; and the comparison is null when the websiteless analysis of
a domain against itself is compared. -/
theorem c5_dns_relation_score :
    (∀ e w : DomainRecords, ∃ s,
      compare_dns_results { email_domain := e, website_domain := some w } = some s ∧
      s.relation_score =
        min (25 * min s.matching_nameservers.length 2
          + (if s.matching_a_records ≠ [] then 30 else 0)
          + (if s.matching_aaaa_records ≠ [] then 15 else 0)
          + (if s.matching_mx_records ≠ [] then 20 else 0)
          + (if s.soa_email_relation then 10 else 0)
          + (if s.spf_similarity then 10 else 0)) 100) ∧
    (compare_dns_results { email_domain := eRec, website_domain := some wRec }
      = some
        { matching_nameservers := ["ns1.host.net", "ns2.host.net"]
          matching_mx_records := []
          matching_a_records := ["10.0.0.2"]
          matching_aaaa_records := []
          soa_email_relation := false
          spf_similarity := false
          email_soa := none
          website_soa := none
          email_spf := none
          website_spf := none
          relation_score := 80 }) ∧
    (∀ (res : Resolver) (d : String),
      compare_dns_results (run_dns_analysis res d (some d)) = none) ∧
    (∀ e : DomainRecords,
      compare_dns_results { email_domain := e, website_domain := none } = none) := by
  refine ⟨?_, by decide, ?_, fun e => rfl⟩
  · intro e w
    refine ⟨_, rfl, ?_⟩
    dsimp only [compare_dns_results]
    rw [ns_term]
  · intro res d
    simp [run_dns_analysis, compare_dns_results]

/-- The three bonus fields the per-link loop never writes. -/
def bonusTriple (sb : ScoreBreakdown) : Int × Int × Int :=
  (sb.whois_bonus, sb.dns_similarity_bonus, sb.dns_verification_bonus)

set_option maxHeartbeats 2000000 in
/-- The per-link loop touches no bonus field: whois_bonus,
dns_similarity_bonus and dns_verification_bonus survive both the early
FQDN return and the fall-through exit unchanged. -/
theorem scoreLinks_frame (tldx : String → TLDParts) (ep : TLDParts)
    (ext : List ExternalId) :
    ∀ (links : List String) (sb out : ScoreBreakdown),
      (scoreLinks tldx ep ext links sb = some (Sum.inl out) ∨
        scoreLinks tldx ep ext links sb = some (Sum.inr out)) →
      bonusTriple out = bonusTriple sb := by
  intro links
  induction links with
  | nil =>
    intro sb out h
    rcases h with h | h
    · simp [scoreLinks] at h
    · simp only [scoreLinks, Option.some.injEq, Sum.inr.injEq] at h
      rw [h]
  | cons link rest ih =>
    intro sb out h
    rcases h with h | h <;>
    · simp only [scoreLinks] at h
      repeat' split at h
      all_goals
        first
          | (exact (ih _ _ (Or.inl h)).trans rfl)
          | (exact (ih _ _ (Or.inr h)).trans rfl)
          | (cases h <;> exact rfl)

/-- Email-side DNS records of the C6 instance: chosen so that the
relation score against fullRec2 reaches the 100 cap. -/
def fullRec : DomainRecords :=
  { domain := "uni.edu", mx_records := ["mx.h.net"], ns_records := ["ns1.h.net", "ns2.h.net"]
    a_records := ["10.0.0.1"], aaaa_records := ["::1"], cname_record := none
    soa_email := none, txt_records := [], spf_record := none }

/-- Website-side DNS records of the C6 instance: identical data under a
different domain name. -/
def fullRec2 : DomainRecords := { fullRec with domain := "col.edu" }

/-- DNS analysis context of the C6 instance. -/
def drC6 : DnsAnalysis := { email_domain := fullRec, website_domain := some fullRec2 }

/-- WHOIS summary of the C6 instance, carrying the maximal raw score. -/
def wSum100 : WhoisSummary :=
  { match_score := 100
    matches' := { domain_name := none, org := none, name := none, address := none, emails := none } }

/-- Degenerate tldextract oracle for instances that never look at the
decomposition. -/
def tldxC6 : String → TLDParts :=
  fun _ => { subdomain := "", domain := "", suffix := "", fqdn := "x" }

/-- A-record oracle answering nothing, as get_a_records does when every
lookup fails. -/
def getAnone : String → List String := fun _ => []

/-- Candidate without links used by the C6 instance. -/
def resC6 : RorResult := { name := "N", links := [], external_ids := [] }

/-- Expected breakdown of the C6 instance. -/
def sbC6 : ScoreBreakdown :=
  { initialBreakdown with whois_bonus := 20, dns_similarity_bonus := 14, total := 34 }

/-- Claim C6: whenever the scorer is given a WHOIS summary, the returned
whois_bonus is min(20, match_score // 5); whenever the DNS context holds
both domains, the returned dns_similarity_bonus is
min(15, relation_score // 7); the two caps are independent, a raw 100
giving 20 and 14. -/
theorem c6_bonus_caps :
    (∀ (tldx : String → TLDParts) (getA : String → List String) (email : String)
        (result : RorResult) (dr : DnsAnalysis) (w : WhoisSummary) (sb : ScoreBreakdown),
      calculate_match_score tldx getA email result (some dr) (some w) = some sb →
      sb.whois_bonus = ((min 20 (w.match_score / 5) : Nat) : Int) ∧
      (∀ wrec : DomainRecords, dr.website_domain = some wrec →
        ∃ s, compare_dns_results dr = some s ∧
          sb.dns_similarity_bonus = ((min 15 (s.relation_score / 7) : Nat) : Int))) ∧
    ((min 20 (100 / 5 : Nat) : Nat) = 20 ∧ (min 15 (100 / 7 : Nat) : Nat) = 14) := by
  refine ⟨?_, by decide⟩
  intro tldx getA email result dr w sb h
  rcases dr with ⟨ed, wd⟩
  unfold calculate_match_score at h
  dsimp only at h
  have htri : bonusTriple sb =
      bonusTriple (preLoopBreakdown getA result (some ⟨ed, wd⟩) (some w)) := by
    rcases hsl : scoreLinks tldx (tldx (pyLast (splitChar '@' email))) result.external_ids
        result.links (preLoopBreakdown getA result (some ⟨ed, wd⟩) (some w)) with _ | s
    · rw [hsl] at h; cases h
    · rcases s with s | s
      · rw [hsl] at h
        cases h
        exact scoreLinks_frame _ _ _ _ _ _ (Or.inl hsl)
      · rw [hsl] at h
        cases h
        exact Eq.trans (by rfl) (scoreLinks_frame _ _ _ _ _ _ (Or.inr hsl))
  constructor
  · have h1 := congrArg Prod.fst htri
    simp only [bonusTriple] at h1
    rw [h1]
    rcases wd with _ | wrec <;> rfl
  · intro wrec hwd
    rcases wd with _ | wrec'
    · cases hwd
    · cases hwd
      refine ⟨_, rfl, ?_⟩
      have h2 := congrArg (fun t => t.2.1) htri
      simp only [bonusTriple] at h2
      rw [h2]
      rfl

/-- Witness for claim C6: both bonus equations of the theorem at the
concrete maximal-score instance, hypotheses discharged by evaluation. -/
theorem c6_bonus_caps_witness :
    calculate_match_score tldxC6 getAnone "u@uni.edu" resC6 (some drC6) (some wSum100)
        = some sbC6 ∧
      sbC6.whois_bonus = ((min 20 (wSum100.match_score / 5) : Nat) : Int) ∧
      (∃ s, compare_dns_results drC6 = some s ∧
        sbC6.dns_similarity_bonus = ((min 15 (s.relation_score / 7) : Nat) : Int)) :=
  ⟨by decide,
    (c6_bonus_caps.1 tldxC6 getAnone "u@uni.edu" resC6 drC6 wSum100 sbC6 (by decide)).1,
    (c6_bonus_caps.1 tldxC6 getAnone "u@uni.edu" resC6 drC6 wSum100 sbC6 (by decide)).2
      fullRec2 rfl⟩

/-- tldextract oracle of the C1 instance. -/
def tldxC1 : String → TLDParts := fun s =>
  if s = "example.com" then
    { subdomain := "", domain := "example", suffix := "com", fqdn := "example.com" }
  else if s = "sub.example.com" then
    { subdomain := "sub", domain := "example", suffix := "com", fqdn := "sub.example.com" }
  else { subdomain := "", domain := "", suffix := "", fqdn := "" }

/-- Claim C1 (code bug): on an exact FQDN match the scorer does return at
the first matching link with fully_qualified_domain_name_match = 100 and
every other component at its default (the second link, which would have
scored domain_match = 80, is never evaluated), but the claimed
total == 100 fails: the early return precedes the line that fills in
total, so total is still 0. -/
theorem c1_fqdn_short_circuit_total :
    calculate_match_score tldxC1 getAnone "a@example.com"
        { name := "Example Org", links := ["example.com", "sub.example.com"],
          external_ids := [] } none none
      = some { initialBreakdown with fully_qualified_domain_name_match := 100 } ∧
    ({ initialBreakdown with fully_qualified_domain_name_match := 100 } :
      ScoreBreakdown).total = 0 ∧
    ({ initialBreakdown with fully_qualified_domain_name_match := 100 } :
      ScoreBreakdown).total ≠ 100 := by
  refine ⟨by decide, by decide, by decide⟩

/-- tldextract oracle of the C2 instance. -/
def tldxC2 : String → TLDParts := fun s =>
  if s = "uni.edu" then
    { subdomain := "", domain := "uni", suffix := "edu", fqdn := "uni.edu" }
  else if s = "www.uni.edu" then
    { subdomain := "www", domain := "uni", suffix := "edu", fqdn := "www.uni.edu" }
  else { subdomain := "", domain := "", suffix := "", fqdn := "" }

/-- Claim C2 (code bug): the breakdown returned on the www-normalized
FQDN match has component sum 100 but total 0, so total == sum of the
other components fails on the early-return path (each component is
still inside its documented bound there). -/
theorem c2_total_differs_from_component_sum :
    calculate_match_score tldxC2 getAnone "b@uni.edu"
        { name := "Uni", links := ["www.uni.edu"], external_ids := [] } none none
      = some { initialBreakdown with fully_qualified_domain_name_match := 100 } ∧
    componentSum { initialBreakdown with fully_qualified_domain_name_match := 100 } = 100 ∧
    ({ initialBreakdown with fully_qualified_domain_name_match := 100 } :
        ScoreBreakdown).total
      ≠ componentSum { initialBreakdown with fully_qualified_domain_name_match := 100 } := by
  refine ⟨by decide, by decide, by decide⟩

/-- tldextract oracle of the C8 instance. -/
def tldxC8 : String → TLDParts := fun s =>
  if s = "dept.uni.org" then
    { subdomain := "dept", domain := "uni", suffix := "org", fqdn := "dept.uni.org" }
  else if s = "uni.org" then
    { subdomain := "", domain := "uni", suffix := "org", fqdn := "uni.org" }
  else { subdomain := "", domain := "", suffix := "", fqdn := "" }

/-- Claim C8 (code bug): a candidate whose fundref external-identifier
entry carries an empty "all" list makes the scorer evaluate
external_id["all"][0] on the domain-match path and raise IndexError
(none in this embedding) instead of returning a breakdown. -/
theorem c8_crossref_empty_all_raises :
    calculate_match_score tldxC8 getAnone "c@dept.uni.org"
        { name := "U", links := ["uni.org"],
          external_ids := [{ type' := "fundref", all := [] }] } none none
      = none ∧
    findCrossrefId [{ type' := "fundref", all := [] }] = none := by
  refine ⟨by decide, by decide⟩

/-- Claim C9: with an empty links sequence the scorer returns the all
zero breakdown (total 0) for every email, every external-id list and
every decomposition/resolver oracle, and never fails. -/
theorem c9_empty_links_zero_breakdown :
    ∀ (tldx : String → TLDParts) (getA : String → List String) (email nm : String)
      (ext : List ExternalId),
      calculate_match_score tldx getA email
          { name := nm, links := [], external_ids := ext } none none
        = some initialBreakdown ∧
      componentSum initialBreakdown = 0 ∧ initialBreakdown.total = 0 :=
  fun _ _ _ _ _ => ⟨rfl, rfl, rfl⟩

/-- The tldextract decomposition of mail.dept.example.ac.uk.  Modelled
from the spec: tldextract itself is outside the repository; the spec's
glossary fixes example as the registrable domain and ac.uk as the
public suffix of this address, leaving mail.dept as the subdomain
chain. -/
def extractMailDept : TLDParts :=
  { subdomain := "mail.dept", domain := "example", suffix := "ac.uk"
    fqdn := "mail.dept.example.ac.uk" }

/-- Counterexample to claim C3 as stated: for a@mail.dept.example.ac.uk
the generator also emits the variant mail.dept (from parts[i:-1] at
i = 0), which the claimed five-element variant set does not contain, so
the query list has six entries, not five. -/
theorem c3_variant_set_counterexample :
    (countryBase "ac.uk" ++ "mail.dept") ∈ generate_ror_queries extractMailDept ∧
    "mail.dept" ∈ sortedVariants (labelChain extractMailDept) ∧
    "mail.dept" ∉ (["example", "dept", "mail", "dept.example", "mail.dept.example"] :
      List String) ∧
    (generate_ror_queries extractMailDept).length ≠ 5 := by
  refine ⟨by decide, by decide, by decide, by decide⟩

/-- Transitivity of the dot-count comparison used by the variant sort. -/
theorem dotLe_trans (a b c : String) :
    decide (dotCount a ≤ dotCount b) = true → decide (dotCount b ≤ dotCount c) = true →
      decide (dotCount a ≤ dotCount c) = true := by
  simp only [decide_eq_true_eq]
  omega

/-- Totality of the dot-count comparison used by the variant sort. -/
theorem dotLe_total (a b : String) :
    decide (dotCount a ≤ dotCount b) = true ∨ decide (dotCount b ≤ dotCount a) = true := by
  simp only [decide_eq_true_eq]
  omega

/-- Claim C3 as amended: the variant set for a@mail.dept.example.ac.uk is
exactly the six variants example, dept, mail, dept.example, mail.dept
and mail.dept.example, each wrapped once in the country-scoped template
(the suffix ends in the known ccTLD uk), ordered by ascending dot count
so the example query precedes the dept.example query; and a
decomposition without subdomain yields exactly one query. -/
theorem c3_variants_amended :
    labelChain extractMailDept = ["mail", "dept", "example"] ∧
    (∀ v : String, v ∈ sortedVariants (labelChain extractMailDept) ↔
      (v = "example" ∨ v = "dept" ∨ v = "mail" ∨ v = "dept.example" ∨
        v = "mail.dept" ∨ v = "mail.dept.example")) ∧
    (generate_ror_queries extractMailDept).length = 6 ∧
    (generate_ror_queries extractMailDept).Nodup ∧
    generate_ror_queries extractMailDept
      = (sortedVariants (labelChain extractMailDept)).map
          (fun v => countryBase "ac.uk" ++ v) ∧
    (sortedVariants (labelChain extractMailDept)).map dotCount = [0, 0, 0, 1, 1, 2] ∧
    (∀ parts : List String,
      ((sortedVariants parts).map dotCount).Pairwise (fun a b => a ≤ b)) ∧
    List.indexOf (countryBase "ac.uk" ++ "example") (generate_ror_queries extractMailDept)
      < List.indexOf (countryBase "ac.uk" ++ "dept.example")
          (generate_ror_queries extractMailDept) ∧
    (∀ dom suf fq : String,
      generate_ror_queries { subdomain := "", domain := dom, suffix := suf, fqdn := fq }
        = [(if pyLast (splitChar '.' suf) ∈ tlds then countryBase suf else genericBase)
            ++ dom]) := by
  refine ⟨by decide, ?_, by decide, by decide, by decide, by decide, ?_, by decide, ?_⟩
  · intro v
    have hv : sortedVariants (labelChain extractMailDept)
        = ["dept", "example", "mail", "mail.dept", "dept.example", "mail.dept.example"] := by
      decide
    rw [hv]
    simp only [List.mem_cons, List.not_mem_nil, or_false]
    tauto
  · intro parts
    rw [List.pairwise_map]
    exact (pairwise_sortStable dotLe_trans dotLe_total (domain_variants parts)).imp
      (fun h => by simpa [decide_eq_true_eq] using h)
  · intro dom suf fq
    simp [generate_ror_queries, sortedVariants, domain_variants, rawVariants, labelChain,
      dedupKeepFirst, addUnique, sortStable, insertStable, joinDots, List.range_succ]

/-- Claim C10: when the extracted host starts with "www.", the returned
domain is the host with every leading character from the set of 'w' and
'.' removed (Python lstrip character-set semantics), not just the
four-character prefix: a host whose fifth character is again 'w' loses
it too. -/
theorem c10_lstrip_www :
    (∀ url : String, startsWithS "www." (hostOf url) = true →
      get_domain_from_url url
        = String.mk ((hostOf url).toList.dropWhile (fun c => c = 'w' ∨ c = '.'))) ∧
    hostOf "www.web.example.com" = "www.web.example.com" ∧
    get_domain_from_url "www.web.example.com" = "eb.example.com" ∧
    get_domain_from_url "www.web.example.com"
      ≠ String.mk ("www.web.example.com".toList.drop 4) := by
  refine ⟨?_, by decide, by decide, by decide⟩
  intro url h
  unfold get_domain_from_url
  rw [if_pos h]
  unfold pyLstrip
  congr 1
  have hfun : (fun c : Char => decide (c ∈ ("www." : String).toList))
      = fun c : Char => decide (c = 'w' ∨ c = '.') := by
    funext c
    rw [decide_eq_decide]
    show c ∈ ['w', 'w', 'w', '.'] ↔ _
    simp only [List.mem_cons, List.not_mem_nil, or_false]
    tauto
  rw [hfun]

/-- Witness for claim C10: the lstrip equation applied at the concrete
host www.web.example.com. -/
theorem c10_lstrip_www_witness :
    get_domain_from_url "www.web.example.com"
      = String.mk (("www.web.example.com" : String).toList.dropWhile
          (fun c => c = 'w' ∨ c = '.')) := by
  have h := c10_lstrip_www.1 "www.web.example.com" (by decide)
  rw [h]
  have hh : hostOf "www.web.example.com" = "www.web.example.com" := by decide
  rw [hh]
